import Mathlib

/-!
# Voice Turn Controller — verification of `src/frontend/src/App.jsx`

Shallow embedding of the client-side voice-turn controller of the
voice_rag repository: the Deepgram transcript event handler, the silence
timer, `processTranscript`, `speakResponse` (with its audio-element event
handlers), and `stopRecording`, together with proofs of the spec's
testable properties about them.

Modelling conventions:
* React `useState` setters and `useRef` mutations are both modelled as
  field updates on a single `AppState` record; the event-loop runs
  handlers atomically, so each JS handler becomes one Lean function on
  `AppState`.
* JS strings are Lean `String`s; `String.prototype.trim` is `jsTrim`
  (drop Unicode whitespace from both ends, here `Char.isWhitespace`).
* `setTimeout` returns a fresh timer id drawn from `nextTimerId`;
  `clearTimeout`/a null ref is `silenceTimer = none`.
* Wall-clock timestamps (`new Date().toLocaleTimeString()`) are
  abstracted to `""`: no claim mentions them.
-/

namespace VoiceRag

/-- A chat history entry: `{question, answer, timestamp}` pushed by
`setChatHistory` in `App.jsx`. -/
structure ChatTurn where
  question : String
  answer : String
  timestamp : String
deriving Repr, DecidableEq

/-- The controller state: the React state hooks (`isRecording`,
`isProcessing`, `isSpeaking`, `isListening`, `transcript`, `response`,
`error`, `chatHistory`) and the refs (`transcriptBufferRef`,
`isProcessingRef`, `isSpeakingRef`, `silenceTimerRef`,
`mediaRecorderRef`, `audioStreamRef`, `deepgramSocketRef`) of `App.jsx`.
The three resource refs are modelled by whether the resource is live. -/
structure AppState where
  isRecording : Bool
  isProcessing : Bool
  isSpeaking : Bool
  isListening : Bool
  transcript : String
  response : String
  error : String
  chatHistory : List ChatTurn
  transcriptBuffer : String
  isProcessingRef : Bool
  isSpeakingRef : Bool
  silenceTimer : Option Nat
  nextTimerId : Nat
  mediaRecorderActive : Bool
  audioStreamActive : Bool
  deepgramSocketOpen : Bool
deriving Repr, DecidableEq

/-- The initial state of the component: every flag `false`, every string
empty, no history, no timer, no live resources. -/
def initialState : AppState :=
  { isRecording := false, isProcessing := false, isSpeaking := false
    isListening := false, transcript := "", response := "", error := ""
    chatHistory := [], transcriptBuffer := "", isProcessingRef := false
    isSpeakingRef := false, silenceTimer := none, nextTimerId := 0
    mediaRecorderActive := false, audioStreamActive := false
    deepgramSocketOpen := false }

/-- JS `String.prototype.trim`: remove whitespace from both ends. -/
def jsTrim (s : String) : String :=
  ⟨((s.data.dropWhile Char.isWhitespace).reverse.dropWhile Char.isWhitespace).reverse⟩

/-- A Deepgram `Transcript` event: `data?.channel?.alternatives?.[0]?.transcript`
(absent alternatives give `none`, i.e. JS `undefined`) and `data?.is_final`. -/
structure TranscriptEvent where
  transcriptText : Option String
  isFinal : Bool
deriving Repr, DecidableEq

/-- The `connection.on(LiveTranscriptionEvents.Transcript, ...)` handler
(`App.jsx` lines 266-307): drop the event when speaking or processing;
otherwise, when the text is truthy and its trim is truthy, clear any
pending silence timer, then either append to the buffer, display the
trimmed buffer and arm a fresh silence timer (final event), or display
the interim concatenation (non-final event). -/
def onTranscript (s : AppState) (ev : TranscriptEvent) : AppState :=
  if s.isSpeakingRef || s.isProcessingRef then s
  else
    match ev.transcriptText with
    | none => s
    | some t =>
      if t ≠ "" ∧ jsTrim t ≠ "" then
        let s1 := { s with silenceTimer := none }
        if ev.isFinal then
          let buf := s1.transcriptBuffer ++ " " ++ t
          { s1 with transcriptBuffer := buf, transcript := jsTrim buf
                    silenceTimer := some s1.nextTimerId
                    nextTimerId := s1.nextTimerId + 1 }
        else
          { s1 with transcript := jsTrim (s1.transcriptBuffer ++ " " ++ t) }
      else s

/-- A sequence of final-transcript events carrying the given fragments. -/
def finalEvents (frags : List String) : List TranscriptEvent :=
  frags.map (fun t => ⟨some t, true⟩)

/-- Feed a sequence of transcript events to the handler in arrival order. -/
def runEvents (s : AppState) (evs : List TranscriptEvent) : AppState :=
  evs.foldl onTranscript s

/-- Modelled from the spec's words ("the space-joined concatenation of
those fragments in arrival order"): the reference join the committed
buffer is compared against. -/
def spaceJoin : List String → String
  | [] => ""
  | [t] => t
  | t :: ts => t ++ " " ++ spaceJoin ts

/-- Result of the synchronous head of `processTranscript` (`App.jsx`
lines 391-417), up to the first `await`: either the duplicate-processing
guard hit (no-op), or the trimmed buffer was empty (error set, no
query), or the in-flight flags were set and the query posted. -/
inductive DispatchStart where
  | alreadyProcessing
  | emptyBuffer (s : AppState)
  | querySent (s : AppState) (query : String)
deriving Repr, DecidableEq

/-- The synchronous head of `processTranscript`: check `isProcessingRef`,
trim the buffer, and either bail out or set `isProcessingRef`,
`setIsProcessing(true)`, `setError('')` and send the query. -/
def processTranscriptStart (s : AppState) : DispatchStart :=
  if s.isProcessingRef then .alreadyProcessing
  else
    let currentTranscript := jsTrim s.transcriptBuffer
    if currentTranscript = "" then
      .emptyBuffer
        { s with error := "No transcript to process. Please speak and try again." }
    else
      .querySent
        { s with isProcessingRef := true, isProcessing := true, error := "" }
        currentTranscript

/-- The state after a `processTranscriptStart` result (unchanged when the
duplicate-processing guard hit). -/
def dispatchState (s : AppState) : DispatchStart → AppState
  | .alreadyProcessing => s
  | .emptyBuffer s1 => s1
  | .querySent s1 _ => s1

/-- How many outbound `/query` requests a `processTranscriptStart`
result performed. -/
def queriesSent : DispatchStart → Nat
  | .querySent _ _ => 1
  | _ => 0

/-- Events the `Audio` element fires during answer playback: the `play`
event, the `ended` event, and the `error` event. -/
inductive AudioEvent where
  | play
  | ended
  | err
deriving Repr, DecidableEq

/-- `setResponse(text)` followed by the `setChatHistory` push of
`{question, answer: text, timestamp}` (timestamp abstracted to `""`). -/
def revealAnswer (s : AppState) (text question : String) : AppState :=
  { s with response := text
           chatHistory := s.chatHistory ++
             [{ question := question, answer := text, timestamp := "" }] }

/-- Playback context for one synthesized answer: the app state, the text
and question captured by the handlers, whether the one-shot
`onPlayHandler` is still attached, and whether the blob URL has been
revoked. -/
structure PlaybackCtx where
  app : AppState
  text : String
  question : String
  playHandlerAttached : Bool
  urlRevoked : Bool
deriving Repr, DecidableEq

/-- One audio-element event, as handled in `speakResponse` (`App.jsx`
lines 479-512): `play` runs the one-shot `onPlayHandler` (reveal, then
remove itself); `ended` clears the speaking flags and revokes the blob
URL; `error` clears the speaking flags, sets the error string, and
reveals the answer as fallback. -/
def audioStep (c : PlaybackCtx) : AudioEvent → PlaybackCtx
  | .play =>
    if c.playHandlerAttached then
      { c with app := revealAnswer c.app c.text c.question
               playHandlerAttached := false }
    else c
  | .ended =>
    { c with app := { c.app with isSpeaking := false, isSpeakingRef := false }
             urlRevoked := true }
  | .err =>
    let appErr := { c.app with isSpeaking := false, isSpeakingRef := false
                               error := "Failed to play audio response" }
    { c with app := revealAnswer appErr c.text c.question }

/-- Outcome of the `/tts` request inside `speakResponse`: the request
threw (caught by the outer `catch`), or it returned audio and playback
fired the given element events in order. -/
inductive TTSOutcome where
  | failed (msg : String)
  | ok (trace : List AudioEvent)
deriving Repr, DecidableEq

/-- What a `speakResponse` call produced: the resulting app state,
whether a blob URL was created, and whether it was revoked. -/
structure SpeakOutcome where
  state : AppState
  urlCreated : Bool
  urlRevoked : Bool
deriving Repr, DecidableEq

/-- `speakResponse(text, question)` (`App.jsx` lines 458-531): set the
speaking flags, request synthesis; on request failure the `catch` block
clears the flags, sets the error string and reveals the text immediately
(no blob URL exists); on success a blob URL is created, the three
element handlers are installed, and the playback events run in order. -/
def speakResponse (s : AppState) (text question : String) :
    TTSOutcome → SpeakOutcome
  | .failed msg =>
    let s1 := { s with isSpeaking := true, isSpeakingRef := true }
    let s2 :=
      revealAnswer
        { s1 with error := "Failed to generate speech: " ++ msg
                  isSpeaking := false, isSpeakingRef := false }
        text question
    { state := s2, urlCreated := false, urlRevoked := false }
  | .ok trace =>
    let s1 := { s with isSpeaking := true, isSpeakingRef := true }
    let c := trace.foldl audioStep
      { app := s1, text := text, question := question
        playHandlerAttached := true, urlRevoked := false }
    { state := c.app, urlCreated := true, urlRevoked := c.urlRevoked }

/-- The `isRecording` value the `processTranscript` closure reads: not
the live state but the `useState` render snapshot captured when the
Deepgram Transcript handler was registered inside `startRecording`.
That registration happens in a render where `isRecording` is still
`false` (the Start button only renders when not recording, and
`setIsRecording(true)` only affects later renders), so the captured
snapshot is `false`. -/
def capturedIsRecording : Bool := false

/-- The resume-listening tail shared by both `processTranscript`
continuations: `if (isRecording && deepgramSocketRef.current)
setIsListening(true)`. `deepgramSocketRef` is a live ref, but
`isRecording` is the stale [`capturedIsRecording`] snapshot, which is
`false` — so this branch never fires and `setIsListening(true)` here is
dead code. -/
def resumeListening (s : AppState) : AppState :=
  if capturedIsRecording = true ∧ s.deepgramSocketOpen = true then
    { s with isListening := true }
  else s

/-- The success continuation of `processTranscript` (`App.jsx` lines
419-439), run when the `/query` promise resolves with `answer`: speak
the response, then clear the transcript buffer and displayed transcript,
clear the processing flags, and run the resume-listening tail (dead in
practice, see [`resumeListening`]). `s` is the state at resolution
time. -/
def processTranscriptSuccess (s : AppState) (answer question : String)
    (tts : TTSOutcome) : SpeakOutcome :=
  let out := speakResponse s answer question tts
  let s1 := { out.state with transcriptBuffer := "", transcript := ""
                             isProcessingRef := false, isProcessing := false }
  { out with state := resumeListening s1 }

/-- The `catch` continuation of `processTranscript` (`App.jsx` lines
441-451), run when the `/query` request throws: surface the error, clear
the processing flags, and run the resume-listening tail (dead in
practice, see [`resumeListening`]). The transcript buffer is not touched
here. -/
def processTranscriptFailure (s : AppState) (msg : String) : AppState :=
  let s1 := { s with error := "Failed to process query: " ++ msg
                     isProcessingRef := false, isProcessing := false }
  resumeListening s1

/-- `stopRecording` (`App.jsx` lines 344-388): clear the recording and
listening flags, clear any pending silence timer, stop the media
recorder, stop and release the microphone tracks, and finish and null
the Deepgram connection. -/
def stopRecording (s : AppState) : AppState :=
  { s with isRecording := false, isListening := false
           silenceTimer := none
           mediaRecorderActive := false
           audioStreamActive := false
           deepgramSocketOpen := false }

/-! ## Helper lemmas -/

/-- Trimming the empty string gives the empty string. -/
theorem jsTrim_empty : jsTrim "" = "" := rfl

/-- Trimming is unaffected by a prepended space. -/
theorem jsTrim_space_append (s : String) : jsTrim (" " ++ s) = jsTrim s := by
  simp [jsTrim, String.data_append]

/-- The fragments the transcript handler actually commits: those whose
text is truthy and whose trim is truthy (equivalently, whose trim is
non-empty). -/
def keptFrags (frags : List String) : List String :=
  frags.filter (fun t => jsTrim t ≠ "")

/-- The exact string the handler appends for a list of committed
fragments: a space followed by the fragment, for each fragment. -/
def spacedConcat : List String → String
  | [] => ""
  | t :: ts => " " ++ t ++ spacedConcat ts

/-- On non-empty lists, `spacedConcat` is a leading space followed by
the space-join. -/
theorem spacedConcat_eq_space_spaceJoin (t : String) (ts : List String) :
    spacedConcat (t :: ts) = " " ++ spaceJoin (t :: ts) := by
  induction ts generalizing t with
  | nil => simp [spacedConcat, spaceJoin]
  | cons u us ih =>
    show " " ++ t ++ spacedConcat (u :: us) = " " ++ spaceJoin (t :: u :: us)
    rw [ih u]
    show " " ++ t ++ (" " ++ spaceJoin (u :: us))
      = " " ++ (t ++ " " ++ spaceJoin (u :: us))
    simp [String.append_assoc]

/-- A truthy trim forces a truthy string. -/
theorem ne_empty_of_jsTrim_ne_empty {t : String} (h : jsTrim t ≠ "") :
    t ≠ "" := by
  intro he
  exact h (he ▸ jsTrim_empty)

/-- The transcript handler leaves the processing and speaking refs
untouched. -/
theorem onTranscript_refs (s : AppState) (ev : TranscriptEvent) :
    (onTranscript s ev).isProcessingRef = s.isProcessingRef ∧
    (onTranscript s ev).isSpeakingRef = s.isSpeakingRef := by
  unfold onTranscript
  split
  · exact ⟨rfl, rfl⟩
  · match ev.transcriptText with
    | none => exact ⟨rfl, rfl⟩
    | some t =>
      dsimp only
      split
      · split <;> exact ⟨rfl, rfl⟩
      · exact ⟨rfl, rfl⟩

/-- While not processing and not speaking, running a list of final
events extends the committed buffer by exactly a space-prefixed copy of
every fragment with truthy trim, in arrival order. -/
theorem runEvents_final_transcriptBuffer (frags : List String) (s : AppState)
    (hp : s.isProcessingRef = false) (hs : s.isSpeakingRef = false) :
    (runEvents s (finalEvents frags)).transcriptBuffer
      = s.transcriptBuffer ++ spacedConcat (keptFrags frags) := by
  induction frags generalizing s with
  | nil => simp [runEvents, finalEvents, keptFrags, spacedConcat]
  | cons t ts ih =>
    have step : runEvents s (finalEvents (t :: ts))
        = runEvents (onTranscript s ⟨some t, true⟩) (finalEvents ts) := rfl
    by_cases ht : jsTrim t = ""
    · have hdrop : onTranscript s ⟨some t, true⟩ = s := by
        unfold onTranscript
        simp [hp, hs, ht]
      have hkeep : keptFrags (t :: ts) = keptFrags ts := by
        simp [keptFrags, ht]
      rw [step, hdrop, hkeep, ih s hp hs]
    · have ht0 : t ≠ "" := ne_empty_of_jsTrim_ne_empty ht
      have hcommit : onTranscript s ⟨some t, true⟩
          = { s with transcriptBuffer := s.transcriptBuffer ++ " " ++ t
                     transcript := jsTrim (s.transcriptBuffer ++ " " ++ t)
                     silenceTimer := some s.nextTimerId
                     nextTimerId := s.nextTimerId + 1 } := by
        unfold onTranscript
        simp [hp, hs, ht, ht0]
      have hkeep : keptFrags (t :: ts) = t :: keptFrags ts := by
        simp [keptFrags, ht]
      have hrec :=
        ih { s with transcriptBuffer := s.transcriptBuffer ++ " " ++ t
                    transcript := jsTrim (s.transcriptBuffer ++ " " ++ t)
                    silenceTimer := some s.nextTimerId
                    nextTimerId := s.nextTimerId + 1 } hp hs
      rw [step, hcommit, hrec, hkeep]
      show s.transcriptBuffer ++ " " ++ t ++ spacedConcat (keptFrags ts)
        = s.transcriptBuffer ++ (" " ++ t ++ spacedConcat (keptFrags ts))
      simp [String.append_assoc]

/-- A single playback event never touches the listening flag, the
recording flag or the connection ref. -/
theorem audioStep_frame (c : PlaybackCtx) (e : AudioEvent) :
    (audioStep c e).app.isListening = c.app.isListening ∧
    (audioStep c e).app.isRecording = c.app.isRecording ∧
    (audioStep c e).app.deepgramSocketOpen = c.app.deepgramSocketOpen := by
  cases e with
  | play =>
    by_cases hA : c.playHandlerAttached = true <;>
      simp [audioStep, hA, revealAnswer]
  | ended => exact ⟨rfl, rfl, rfl⟩
  | err => exact ⟨rfl, rfl, rfl⟩

/-- A whole playback trace never touches the listening flag, the
recording flag or the connection ref. -/
theorem foldl_audioStep_frame (trace : List AudioEvent) (c : PlaybackCtx) :
    (trace.foldl audioStep c).app.isListening = c.app.isListening ∧
    (trace.foldl audioStep c).app.isRecording = c.app.isRecording ∧
    (trace.foldl audioStep c).app.deepgramSocketOpen
      = c.app.deepgramSocketOpen := by
  induction trace generalizing c with
  | nil => exact ⟨rfl, rfl, rfl⟩
  | cons e es ih =>
    have h1 := audioStep_frame c e
    have h2 := ih (audioStep c e)
    exact ⟨h2.1.trans h1.1, h2.2.1.trans h1.2.1, h2.2.2.trans h1.2.2⟩

/-- How a playback trace grows the chat history: one entry if the
one-shot play handler was still attached and a `play` event occurs, plus
one entry per `error` event. -/
theorem foldl_audioStep_history (trace : List AudioEvent) (c : PlaybackCtx) :
    (trace.foldl audioStep c).app.chatHistory.length
      = c.app.chatHistory.length
        + (if c.playHandlerAttached = true ∧ AudioEvent.play ∈ trace then 1 else 0)
        + trace.count AudioEvent.err := by
  induction trace generalizing c with
  | nil => simp
  | cons e es ih =>
    have step : (e :: es).foldl audioStep c = es.foldl audioStep (audioStep c e) :=
      rfl
    rw [step, ih]
    cases e with
    | play =>
      by_cases hA : c.playHandlerAttached = true
      · have h1 : (audioStep c .play).app.chatHistory.length
            = c.app.chatHistory.length + 1 := by
          unfold audioStep
          simp [hA, revealAnswer]
        have h2 : (audioStep c .play).playHandlerAttached = false := by
          unfold audioStep
          simp [hA]
        rw [h1, h2]
        simp [hA, List.count_cons]
      · have h1 : audioStep c .play = c := by
          unfold audioStep
          simp [hA]
        rw [h1]
        have hA2 : ¬ (c.playHandlerAttached = true ∧ AudioEvent.play ∈ .play :: es) :=
          fun h => hA h.1
        simp [hA, hA2, List.count_cons]
    | ended =>
      have h1 : (audioStep c .ended).app.chatHistory = c.app.chatHistory := rfl
      have h2 : (audioStep c .ended).playHandlerAttached = c.playHandlerAttached :=
        rfl
      rw [h1, h2]
      simp [List.count_cons]
    | err =>
      have h1 : (audioStep c .err).app.chatHistory.length
          = c.app.chatHistory.length + 1 := by
        simp [audioStep, revealAnswer]
      have h2 : (audioStep c .err).playHandlerAttached = c.playHandlerAttached :=
        rfl
      rw [h1, h2]
      have : AudioEvent.play ∈ AudioEvent.err :: es ↔ AudioEvent.play ∈ es := by
        simp
      rw [List.count_cons]
      simp [this]
      omega

/-- The blob URL is revoked exactly when an `ended` event occurred. -/
theorem foldl_audioStep_urlRevoked (trace : List AudioEvent) (c : PlaybackCtx) :
    ((trace.foldl audioStep c).urlRevoked = true ↔
      (c.urlRevoked = true ∨ AudioEvent.ended ∈ trace)) := by
  induction trace generalizing c with
  | nil => simp
  | cons e es ih =>
    have step : (e :: es).foldl audioStep c = es.foldl audioStep (audioStep c e) :=
      rfl
    rw [step, ih]
    cases e with
    | play =>
      have h : (audioStep c .play).urlRevoked = c.urlRevoked := by
        by_cases hA : c.playHandlerAttached = true <;> simp [audioStep, hA]
      rw [h]
      simp
    | ended =>
      have h : (audioStep c .ended).urlRevoked = true := rfl
      rw [h]
      simp
    | err =>
      have h : (audioStep c .err).urlRevoked = c.urlRevoked := rfl
      rw [h]
      simp

/-- `speakResponse` never touches the listening flag, the recording flag
or the connection ref, on any synthesis outcome. -/
theorem speakResponse_frame (s : AppState) (text question : String)
    (tts : TTSOutcome) :
    (speakResponse s text question tts).state.isListening = s.isListening ∧
    (speakResponse s text question tts).state.isRecording = s.isRecording ∧
    (speakResponse s text question tts).state.deepgramSocketOpen
      = s.deepgramSocketOpen := by
  cases tts with
  | failed msg => exact ⟨rfl, rfl, rfl⟩
  | ok trace =>
    exact foldl_audioStep_frame trace
      { app := { s with isSpeaking := true, isSpeakingRef := true }
        text := text, question := question
        playHandlerAttached := true, urlRevoked := false }

/-- A state mid-conversation: recording with an open connection, live
microphone and recorder, a committed buffer, and an armed silence
timer. -/
def sampleListening : AppState :=
  { initialState with isRecording := true, isListening := true
                      deepgramSocketOpen := true, audioStreamActive := true
                      mediaRecorderActive := true
                      transcriptBuffer := " what is the refund policy"
                      transcript := "what is the refund policy"
                      silenceTimer := some 0, nextTimerId := 1 }

/-! ## Claims -/

/-- C1, counterexample: the dispatched buffer for the final fragments
`"a"`, `" "`, `"b "` is `"a b"` (the whitespace-only fragment is
ignored and the result is trimmed), while their space-joined
concatenation is `"a   b "`, so the claimed equality fails. -/
theorem C1_counterexample :
    ¬ (jsTrim (runEvents initialState (finalEvents ["a", " ", "b "])).transcriptBuffer
        = spaceJoin ["a", " ", "b "]) := by decide

/-- C1, amended: for every sequence of final-transcript events arriving
while neither the processing flag nor the speaking flag is set, starting
from an empty buffer, the dispatched (trimmed) buffer equals the
*trimmed* space-joined concatenation of those fragments *whose text is
not whitespace-only*, in arrival order. -/
theorem C1_buffer_eq_trimmed_spaceJoin (frags : List String) (s : AppState)
    (hb : s.transcriptBuffer = "") (hp : s.isProcessingRef = false)
    (hs : s.isSpeakingRef = false) :
    jsTrim (runEvents s (finalEvents frags)).transcriptBuffer
      = jsTrim (spaceJoin (keptFrags frags)) := by
  rw [runEvents_final_transcriptBuffer frags s hp hs, hb, String.empty_append]
  cases hk : keptFrags frags with
  | nil => rfl
  | cons t ts => rw [spacedConcat_eq_space_spaceJoin, jsTrim_space_append]

/-- C1, witness: the amended theorem applied to the fragments `"hello"`,
`"world"` arriving at the initial state. -/
theorem C1_buffer_eq_trimmed_spaceJoin_witness :
    jsTrim (runEvents initialState (finalEvents ["hello", "world"])).transcriptBuffer
      = jsTrim (spaceJoin (keptFrags ["hello", "world"])) :=
  C1_buffer_eq_trimmed_spaceJoin ["hello", "world"] initialState rfl rfl rfl

/-- C2: any transcript event (final or not) arriving while the
processing ref or the speaking ref is set leaves the whole state — in
particular the committed buffer, the displayed transcript and the
silence timer — unchanged: the event is dropped, not queued. -/
theorem C2_busy_event_dropped (s : AppState) (ev : TranscriptEvent)
    (h : s.isProcessingRef = true ∨ s.isSpeakingRef = true) :
    onTranscript s ev = s := by
  unfold onTranscript
  rcases h with h | h <;> simp [h]

/-- C2, witness: a final transcript event arriving while processing is
dropped. -/
theorem C2_busy_event_dropped_witness :
    onTranscript { initialState with isProcessingRef := true }
        ⟨some "hello", true⟩
      = { initialState with isProcessingRef := true } :=
  C2_busy_event_dropped _ _ (Or.inl rfl)

/-- C4: when a dispatch is started on a state with the in-flight flag
clear and a non-blank buffer, a second invocation of
`processTranscript` on the resulting state hits the duplicate-processing
guard: it is a no-op and exactly one outbound query is sent in total. -/
theorem C4_second_dispatch_noop (s : AppState)
    (hflag : s.isProcessingRef = false)
    (hbuf : jsTrim s.transcriptBuffer ≠ "") :
    processTranscriptStart (dispatchState s (processTranscriptStart s))
        = DispatchStart.alreadyProcessing ∧
    dispatchState (dispatchState s (processTranscriptStart s))
        (processTranscriptStart (dispatchState s (processTranscriptStart s)))
      = dispatchState s (processTranscriptStart s) ∧
    queriesSent (processTranscriptStart s)
        + queriesSent (processTranscriptStart
            (dispatchState s (processTranscriptStart s))) = 1 := by
  have h1 : processTranscriptStart s
      = DispatchStart.querySent
          { s with isProcessingRef := true, isProcessing := true, error := "" }
          (jsTrim s.transcriptBuffer) := by
    unfold processTranscriptStart
    simp [hflag, hbuf]
  have h2 : processTranscriptStart
      ({ s with isProcessingRef := true, isProcessing := true, error := "" })
      = DispatchStart.alreadyProcessing := by
    unfold processTranscriptStart
    simp
  rw [h1]
  refine ⟨h2, ?_, ?_⟩ <;> rw [show dispatchState s (DispatchStart.querySent
      { s with isProcessingRef := true, isProcessing := true, error := "" }
      (jsTrim s.transcriptBuffer))
    = { s with isProcessingRef := true, isProcessing := true, error := "" }
    from rfl, h2] <;> rfl

/-- C4, witness: the double-dispatch theorem applied at a listening
state with a committed buffer. -/
theorem C4_second_dispatch_noop_witness :
    processTranscriptStart
        (dispatchState sampleListening (processTranscriptStart sampleListening))
      = DispatchStart.alreadyProcessing ∧
    dispatchState
        (dispatchState sampleListening (processTranscriptStart sampleListening))
        (processTranscriptStart
          (dispatchState sampleListening (processTranscriptStart sampleListening)))
      = dispatchState sampleListening (processTranscriptStart sampleListening) ∧
    queriesSent (processTranscriptStart sampleListening)
        + queriesSent (processTranscriptStart
            (dispatchState sampleListening
              (processTranscriptStart sampleListening))) = 1 :=
  C4_second_dispatch_noop sampleListening rfl (by decide)

/-- C5, counterexample: on a query failure the transcript buffer is not
cleared — at a listening state holding `" what is the refund policy"`,
the buffer still holds that text after the `catch` block, so the claim
that it is cleared regardless fails. -/
theorem C5_counterexample :
    ¬ ((processTranscriptFailure
          { sampleListening with isProcessingRef := true, isProcessing := true }
          "boom").transcriptBuffer = "") := by decide

/-- C5, amended: a query failure leaves the session usable — the error
string is surfaced and the processing flags are cleared — but the
transcript buffer is left exactly as it was (it is not cleared; clearing
happens only on the success path), and listening does NOT resume: the
resume branch guards on the `isRecording` snapshot captured at handler
registration, which is `false`, so the listening flag is left
unchanged. -/
theorem C5_failure_nonfatal (s : AppState) (msg : String) :
    (processTranscriptFailure s msg).transcriptBuffer = s.transcriptBuffer ∧
    (processTranscriptFailure s msg).error = "Failed to process query: " ++ msg ∧
    (processTranscriptFailure s msg).isProcessingRef = false ∧
    (processTranscriptFailure s msg).isProcessing = false ∧
    (processTranscriptFailure s msg).isListening = s.isListening := by
  unfold processTranscriptFailure resumeListening
  simp [capturedIsRecording]

/-- C6: `stopRecording`, from any state, leaves no pending silence
timer, no open streaming connection, no live microphone track and no
live recorder, clears the recording and listening flags, and is
idempotent: a second call leaves the state of the first. -/
theorem C6_stop_releases_and_idempotent (s : AppState) :
    (stopRecording s).silenceTimer = none ∧
    (stopRecording s).deepgramSocketOpen = false ∧
    (stopRecording s).audioStreamActive = false ∧
    (stopRecording s).mediaRecorderActive = false ∧
    (stopRecording s).isRecording = false ∧
    (stopRecording s).isListening = false ∧
    stopRecording (stopRecording s) = stopRecording s :=
  ⟨rfl, rfl, rfl, rfl, rfl, rfl, rfl⟩

/-- C10: a transcript event whose text is absent, empty or
whitespace-only is ignored entirely, final or not: the whole state — in
particular the buffer, the displayed transcript, and the silence timer
(which is not even cancelled) — is unchanged. -/
theorem C10_blank_event_ignored (s : AppState) (b : Bool) (t : String)
    (ht : jsTrim t = "") :
    onTranscript s ⟨some t, b⟩ = s ∧ onTranscript s ⟨none, b⟩ = s := by
  refine ⟨?_, ?_⟩ <;> unfold onTranscript
  · split
    · rfl
    · simp [ht]
  · split <;> rfl

/-- C10, witness: a whitespace-only interim event at a listening state
with an armed silence timer changes nothing. -/
theorem C10_blank_event_ignored_witness :
    onTranscript sampleListening ⟨some "   ", false⟩ = sampleListening ∧
    onTranscript sampleListening ⟨none, false⟩ = sampleListening :=
  C10_blank_event_ignored sampleListening false "   " (by decide)

/-- C3, counterexample: if playback starts and then an error event
fires, both the play-start reveal and the error fallback run, so the
history entry is appended twice — the claim that exactly one of the two
reveals happens fails on the trace `[play, error]`. -/
theorem C3_counterexample :
    ¬ ((speakResponse sampleListening "The answer." "the question"
          (.ok [AudioEvent.play, AudioEvent.err])).state.chatHistory.length
        = sampleListening.chatHistory.length + 1) := by decide

/-- C3, amended: for a successful synthesis call, no reveal happens
before a play or error event fires; exactly one reveal happens when the
playback trace has a play event and no error event, or exactly one error
event and no play event. (If playback both starts and errors, the
fallback runs in addition to the play-start reveal and the entry is
appended twice.) -/
theorem C3_reveal_once (s : AppState) (text question : String)
    (trace : List AudioEvent) :
    ((AudioEvent.play ∉ trace ∧ AudioEvent.err ∉ trace) →
      (speakResponse s text question (.ok trace)).state.chatHistory.length
        = s.chatHistory.length) ∧
    (((AudioEvent.play ∈ trace ∧ AudioEvent.err ∉ trace) ∨
        (trace.count AudioEvent.err = 1 ∧ AudioEvent.play ∉ trace)) →
      (speakResponse s text question (.ok trace)).state.chatHistory.length
        = s.chatHistory.length + 1) := by
  have hlen : (speakResponse s text question (.ok trace)).state.chatHistory.length
      = s.chatHistory.length
        + (if AudioEvent.play ∈ trace then 1 else 0)
        + trace.count AudioEvent.err := by
    show (trace.foldl audioStep
        { app := { s with isSpeaking := true, isSpeakingRef := true }
          text := text, question := question
          playHandlerAttached := true, urlRevoked := false }).app.chatHistory.length
      = _
    rw [foldl_audioStep_history]
    simp
  constructor
  · intro ⟨hp, he⟩
    rw [hlen, List.count_eq_zero.mpr he]
    simp [hp]
  · rintro (⟨hp, he⟩ | ⟨he, hp⟩)
    · rw [hlen, List.count_eq_zero.mpr he]
      simp [hp]
    · rw [hlen, he]
      simp [hp]

/-- C3, witness: a normal playback (play then ended) reveals exactly
once. -/
theorem C3_reveal_once_witness :
    (speakResponse initialState "The answer." "the question"
        (.ok [AudioEvent.play, AudioEvent.ended])).state.chatHistory.length
      = initialState.chatHistory.length + 1 :=
  (C3_reveal_once initialState "The answer." "the question"
      [AudioEvent.play, AudioEvent.ended]).2 (Or.inl (by decide))

/-- C7, counterexample: a non-whitespace partial (non-final) transcript
event cancels (without rescheduling) a pending silence timer, so the
claim that partial events do not affect the silence timer fails: at a
listening state with an armed timer, an interim `"hi"` clears it. -/
theorem C7_counterexample :
    ¬ ((onTranscript sampleListening ⟨some "hi", false⟩).silenceTimer
        = sampleListening.silenceTimer) := by decide

/-- C7, amended: while not processing and not speaking, a non-whitespace
partial event leaves the committed buffer and chat history unchanged and
updates the live display to the trimmed concatenation of buffer and
fragment — but it also cancels any pending silence timer without
rescheduling it; only a final fragment arms a fresh timer. -/
theorem C7_interim_display_only_but_cancels_timer (s : AppState) (t : String)
    (hp : s.isProcessingRef = false) (hs : s.isSpeakingRef = false)
    (ht : jsTrim t ≠ "") :
    (onTranscript s ⟨some t, false⟩).transcriptBuffer = s.transcriptBuffer ∧
    (onTranscript s ⟨some t, false⟩).transcript
      = jsTrim (s.transcriptBuffer ++ " " ++ t) ∧
    (onTranscript s ⟨some t, false⟩).chatHistory = s.chatHistory ∧
    (onTranscript s ⟨some t, false⟩).silenceTimer = none ∧
    (onTranscript s ⟨some t, true⟩).silenceTimer = some s.nextTimerId ∧
    (onTranscript s ⟨some t, true⟩).nextTimerId = s.nextTimerId + 1 := by
  have ht0 : t ≠ "" := ne_empty_of_jsTrim_ne_empty ht
  unfold onTranscript
  simp [hp, hs, ht, ht0]

/-- C7, witness: the amended theorem at a listening state with an armed
timer and interim fragment `"hi"`. -/
theorem C7_interim_witness :
    (onTranscript sampleListening ⟨some "hi", false⟩).transcriptBuffer
      = sampleListening.transcriptBuffer ∧
    (onTranscript sampleListening ⟨some "hi", false⟩).silenceTimer = none :=
  ⟨(C7_interim_display_only_but_cancels_timer sampleListening "hi" rfl rfl
      (by decide)).1,
   (C7_interim_display_only_but_cancels_timer sampleListening "hi" rfl rfl
      (by decide)).2.2.2.1⟩

/-- The state after the user stops the conversation while a dispatch
started from `sampleListening` is in flight. -/
def stoppedMidProcessing : AppState :=
  stopRecording
    (dispatchState sampleListening (processTranscriptStart sampleListening))

/-- C8, counterexample: when the in-flight query resolves after a
mid-processing stop, the resolved answer IS applied: `speakResponse`
runs, the speaking flag is set while audio plays, and the history entry
is appended — so the claim that the session stays idle and the stale
result is not applied fails. -/
theorem C8_counterexample :
    ¬ ((processTranscriptSuccess stoppedMidProcessing "The answer."
          "what is the refund policy"
          (.ok [AudioEvent.play])).state.isSpeaking = false ∧
       (processTranscriptSuccess stoppedMidProcessing "The answer."
          "what is the refund policy"
          (.ok [AudioEvent.play])).state.chatHistory = []) := by decide

/-- C8, amended: after `stopRecording`, a resolving in-flight query does
not reactivate the listening state (the resume guard reads the nulled
connection ref) and leaves the session not recording and disconnected —
but the stale result is still applied: on a playback that has started,
the speaking flag is set and the answer is appended to the history. -/
theorem C8_stop_mid_processing (s : AppState) (answer question : String)
    (tts : TTSOutcome) :
    (processTranscriptSuccess (stopRecording s) answer question
        tts).state.isListening = false ∧
    (processTranscriptSuccess (stopRecording s) answer question
        tts).state.isRecording = false ∧
    (processTranscriptSuccess (stopRecording s) answer question
        tts).state.deepgramSocketOpen = false ∧
    (tts = TTSOutcome.ok [AudioEvent.play] →
      (processTranscriptSuccess (stopRecording s) answer question
          tts).state.isSpeaking = true ∧
      (processTranscriptSuccess (stopRecording s) answer question
          tts).state.chatHistory
        = s.chatHistory ++ [⟨question, answer, ""⟩]) := by
  have hf := speakResponse_frame (stopRecording s) answer question tts
  have hrec : (speakResponse (stopRecording s) answer question
      tts).state.isRecording = false := hf.2.1
  have hlis : (speakResponse (stopRecording s) answer question
      tts).state.isListening = false := hf.1
  have hsock : (speakResponse (stopRecording s) answer question
      tts).state.deepgramSocketOpen = false := hf.2.2
  refine ⟨?_, ?_, ?_, ?_⟩
  · unfold processTranscriptSuccess resumeListening
    simp [capturedIsRecording, hlis]
  · unfold processTranscriptSuccess resumeListening
    simp [capturedIsRecording, hrec]
  · unfold processTranscriptSuccess resumeListening
    simp [capturedIsRecording, hsock]
  · intro htts
    subst htts
    constructor
    · unfold processTranscriptSuccess resumeListening
      simp [capturedIsRecording, speakResponse, audioStep, revealAnswer,
        stopRecording]
    · unfold processTranscriptSuccess resumeListening
      simp [capturedIsRecording, speakResponse, audioStep, revealAnswer,
        stopRecording]

/-- C8, witness: the amended theorem at the mid-processing stop built
from `sampleListening`. -/
theorem C8_stop_mid_processing_witness :
    (processTranscriptSuccess
        (stopRecording
          (dispatchState sampleListening (processTranscriptStart sampleListening)))
        "The answer." "what is the refund policy"
        (.ok [AudioEvent.play])).state.isListening = false ∧
    (processTranscriptSuccess
        (stopRecording
          (dispatchState sampleListening (processTranscriptStart sampleListening)))
        "The answer." "what is the refund policy"
        (.ok [AudioEvent.play])).state.isSpeaking = true :=
  ⟨(C8_stop_mid_processing _ "The answer." "what is the refund policy" _).1,
   ((C8_stop_mid_processing _ "The answer." "what is the refund policy" _).2.2.2
      rfl).1⟩

/-- C9, counterexample: on a playback that exits through the error event
alone, the blob URL is not revoked (`audio.onerror` has no
`URL.revokeObjectURL` call), so the claim that the URL is released on
every exit path fails. -/
theorem C9_counterexample :
    ¬ ((speakResponse sampleListening "The answer." "the question"
          (.ok [AudioEvent.err])).urlRevoked = true) := by decide

/-- C9, amended: the blob URL created for answer playback is revoked
exactly when an `ended` event fires: it is released when playback ends,
and it is NOT released on the error exit path. -/
theorem C9_url_revoked_iff_ended (s : AppState) (text question : String)
    (trace : List AudioEvent) :
    ((speakResponse s text question (.ok trace)).urlRevoked = true ↔
      AudioEvent.ended ∈ trace) := by
  show ((trace.foldl audioStep
      { app := { s with isSpeaking := true, isSpeakingRef := true }
        text := text, question := question
        playHandlerAttached := true, urlRevoked := false }).urlRevoked = true ↔ _)
  rw [foldl_audioStep_urlRevoked]
  simp

/-- C9, witness: a normal playback (play then ended) does revoke the
URL. -/
theorem C9_url_revoked_iff_ended_witness :
    ((speakResponse initialState "The answer." "the question"
        (.ok [AudioEvent.play, AudioEvent.ended])).urlRevoked = true ↔
      AudioEvent.ended ∈ [AudioEvent.play, AudioEvent.ended]) :=
  C9_url_revoked_iff_ended initialState "The answer." "the question"
    [AudioEvent.play, AudioEvent.ended]

end VoiceRag
